import Mathlib

/-!
Shallow embedding of the WattSwap smart-meter simulator backend
(`simulator.py`, `main.py`) over exact rational arithmetic.

The per-tick state update of `Simulator.tick` is translated field by field;
the stochastic inputs of a tick (the load spike drawn with small probability)
are passed as an explicit parameter `e`.  The synthetic measurement-noise
layer and the snapshot construction are omitted: they read the state but
never feed back into it.  Python's in-place mutation becomes explicit state
passing on `SimState`.
-/

namespace WattSwap

/-! ### Class-level constants of `Simulator` -/

def PV_CAPACITY_KW : ℚ := 4
def BATTERY_CAPACITY_KWH : ℚ := 10
def BATTERY_SOC_START_PCT : ℚ := 60
def EFFICIENCY_ROUNDTRIP : ℚ := 92 / 100
def P_MAX_CHARGE : ℚ := 3
def P_MAX_DISCHARGE : ℚ := 3
def INVERTER_EFFICIENCY : ℚ := 96 / 100
def BASE_LOAD_KW : ℚ := 3 / 2
def SUNRISE_SECONDS : ℚ := 900
def SUNSET_SECONDS : ℚ := 900
def MAX_IRRADIANCE : ℚ := 1000
def STC_IRRADIANCE : ℚ := 1000
def BATTERY_TEMP_C : ℚ := 25
/-- The literal `5.0` used as `grid_available_capacity` in `tick`. -/
def GRID_CAPACITY_KW : ℚ := 5

/-! ### Data model -/

/-- An entry of `Simulator.active_orders` (the keys of the order dict that
`tick`, `add_order` and `get_order_status` actually read). -/
structure Order where
  order_id : Nat
  side : String
  quantity_kwh : ℚ
  duration_sec : ℚ
  filled_kwh : ℚ
  status : String
deriving DecidableEq

/-- An entry of `Simulator.events` (`{'type', 'order_id', 'timestamp'}`). -/
structure Event where
  type : String
  order_id : Nat
  timestamp : ℚ
deriving DecidableEq

/-- The mutable state of `Simulator`.  `current_time` is simulated time in
seconds (midnight of the start day at `0`). -/
structure SimState where
  current_time : ℚ
  soc_kwh : ℚ
  pv_power_kw : ℚ
  load_kw : ℚ
  battery_power_kw : ℚ
  grid_import_kw : ℚ
  grid_export_kw : ℚ
  energy_imported : ℚ
  energy_exported : ℚ
  pv_energy : ℚ
  unserved_load_kw : ℚ
  co2_savings : ℚ
  token_earnings : ℚ
  daytime : Bool
  sun_cloud_factor : ℚ
  grid_connected : Bool
  market_enabled : Bool
  battery_reserve_pct : ℚ
  manual_load_delta_kw : ℚ
  ev_plugged : Bool
  ev_mode : String
  fault_inject : List (String × ℚ)
  time_acceleration : ℚ
  active_orders : List Order
  order_counter : Nat
  events : List Event

/-- `Simulator.__init__` (the wall-clock start time is a parameter). -/
def initState (t0 : ℚ) : SimState where
  current_time := t0
  soc_kwh := BATTERY_CAPACITY_KWH * BATTERY_SOC_START_PCT / 100
  pv_power_kw := 0
  load_kw := BASE_LOAD_KW
  battery_power_kw := 0
  grid_import_kw := 0
  grid_export_kw := 0
  energy_imported := 0
  energy_exported := 0
  pv_energy := 0
  unserved_load_kw := 0
  co2_savings := 0
  token_earnings := 0
  daytime := false
  sun_cloud_factor := 1
  grid_connected := true
  market_enabled := true
  battery_reserve_pct := 10
  manual_load_delta_kw := 0
  ev_plugged := false
  ev_mode := "off"
  fault_inject := []
  time_acceleration := 1
  active_orders := []
  order_counter := 0
  events := []

/-! ### Environmental model -/

/-- `t.hour + t.minute / 60 + t.second / 3600` for a timestamp `t` given in
seconds: `datetime` components are whole numbers, so microseconds drop out
and the value is the floor of the seconds-of-day divided by 3600. -/
def hourOfDay (t : ℚ) : ℚ := ((⌊t⌋ % 86400 : ℤ) : ℚ) / 3600

/-- `Simulator.daylight_curve`: trapezoidal ramp between 6h and 18h,
forced to `0` when the `daytime` knob is off. -/
def daylight_curve (daytime : Bool) (t : ℚ) : ℚ :=
  let hour := hourOfDay t
  let factor :=
    if 6 ≤ hour ∧ hour < 6 + SUNRISE_SECONDS / 3600 then
      (hour - 6) / (SUNRISE_SECONDS / 3600)
    else if 6 + SUNRISE_SECONDS / 3600 ≤ hour ∧ hour < 18 - SUNSET_SECONDS / 3600 then
      1
    else if 18 - SUNSET_SECONDS / 3600 ≤ hour ∧ hour < 18 then
      (18 - hour) / (SUNSET_SECONDS / 3600)
    else 0
  if daytime then factor else 0

/-- `Simulator.pv_temp_derate`. -/
def pv_temp_derate (temp_c : ℚ) : ℚ := 1 - (5 / 100000) * (temp_c - 25)

/-! ### Per-tick computations (`Simulator.tick`) -/

/-- PV generation step of `tick`:
`max(0, PV_CAPACITY * (irradiance / STC) * derate(25) * inverter_eff)` with
`irradiance = MAX_IRRADIANCE * daylight_curve(t) * sun_cloud_factor`. -/
def pvPower (daytime : Bool) (cloud t : ℚ) : ℚ :=
  max 0 (PV_CAPACITY_KW * (MAX_IRRADIANCE * daylight_curve daytime t * cloud / STC_IRRADIANCE) *
    pv_temp_derate BATTERY_TEMP_C * INVERTER_EFFICIENCY)

/-- Load step of `tick`: base load plus the manual delta, plus the random
spike `e` (zero on the 99% of ticks with no spike), plus the EV draw. -/
def loadPower (s : SimState) (e : ℚ) : ℚ :=
  BASE_LOAD_KW + s.manual_load_delta_kw + e +
    (if s.ev_plugged = true ∧ s.ev_mode = "fast" then 3 else 0)

/-- Required power of one active order in the trade-demand aggregation loop
of `tick` (nonzero only for sell orders with positive remaining quantity). -/
def sellOrderRate (o : Order) : ℚ :=
  if o.side = "sell" ∧ 0 < o.quantity_kwh - o.filled_kwh then
    min P_MAX_DISCHARGE ((o.quantity_kwh - o.filled_kwh) / (o.duration_sec / 3600))
  else 0

/-- `trade_sell_kw`: aggregated sell-side trade demand. -/
def tradeSellKw (orders : List Order) : ℚ := (orders.map sellOrderRate).sum

/-- `available_charge` in `tick`. -/
def availCharge (soc dt : ℚ) : ℚ :=
  min P_MAX_CHARGE ((BATTERY_CAPACITY_KWH - soc) / (dt / 3600) / EFFICIENCY_ROUNDTRIP)

/-- `available_discharge` in `tick`. -/
def availDischarge (soc reserve dt : ℚ) : ℚ :=
  min P_MAX_DISCHARGE
    ((soc - BATTERY_CAPACITY_KWH * reserve / 100) / (dt / 3600) * EFFICIENCY_ROUNDTRIP)

/-- Battery scheduling of `tick`: serve the load deficit (or charge from
excess PV), then add discharge for sell-trade demand. -/
def batteryPower (pv load tsell ac ad : ℚ) : ℚ :=
  let bp0 := if 0 < load - pv then min (load - pv) ad else -(min (max 0 (pv - load)) ac)
  if 0 < tsell then bp0 + min tsell (ad - |bp0|) else bp0

/-- SoC delta of `tick` (efficiency divides on discharge, multiplies on
charge). -/
def socChange (bp dt : ℚ) : ℚ :=
  if 0 < bp then -bp * dt / 3600 / EFFICIENCY_ROUNDTRIP
  else -bp * dt / 3600 * EFFICIENCY_ROUNDTRIP

/-- `max(lo, min(hi, x))`, the clamp applied to the SoC. -/
def clampQ (lo hi x : ℚ) : ℚ := max lo (min hi x)

/-- Simulated clock after a tick. -/
def tickT (s : SimState) (dt : ℚ) : ℚ := s.current_time + dt

/-- The tick's PV power. -/
def tickPv (s : SimState) (dt : ℚ) : ℚ := pvPower s.daytime s.sun_cloud_factor (tickT s dt)

/-- The tick's load power. -/
def tickLoad (s : SimState) (e : ℚ) : ℚ := loadPower s e

/-- The tick's realized battery power (positive = discharging). -/
def tickBp (s : SimState) (dt e : ℚ) : ℚ :=
  batteryPower (tickPv s dt) (tickLoad s e) (tradeSellKw s.active_orders)
    (availCharge s.soc_kwh dt) (availDischarge s.soc_kwh s.battery_reserve_pct dt)

/-- `net_power = pv_power_kw + battery_power_kw - load_kw` of the tick. -/
def tickNetPower (s : SimState) (dt e : ℚ) : ℚ :=
  tickPv s dt + tickBp s dt e - tickLoad s e

/-- `grid_export_kw` assignment of `tick`. -/
def tickGe (s : SimState) (dt e : ℚ) : ℚ :=
  if 0 < tickNetPower s dt e then min (tickNetPower s dt e) GRID_CAPACITY_KW else 0

/-- `grid_import_kw` assignment of `tick`. -/
def tickGi (s : SimState) (dt e : ℚ) : ℚ :=
  if 0 < tickNetPower s dt e then 0
  else if s.grid_connected then min (-tickNetPower s dt e) GRID_CAPACITY_KW else 0

/-- `unserved_load_kw` after `tick`: assigned only inside the `net ≤ 0`
branch, and there only when disconnected with a deficit above the grid
capacity; otherwise the field keeps its previous value. -/
def tickUnserved (s : SimState) (dt e : ℚ) : ℚ :=
  if 0 < tickNetPower s dt e then s.unserved_load_kw
  else if s.grid_connected = false ∧ GRID_CAPACITY_KW < -tickNetPower s dt e then
    -tickNetPower s dt e - GRID_CAPACITY_KW
  else s.unserved_load_kw

/-- `filled_this_tick` in the order-update loop of `tick`: the full realized
discharge energy of the tick (zero when the battery is not discharging). -/
def tickFill (s : SimState) (dt e : ℚ) : ℚ :=
  if 0 < tickBp s dt e then tickBp s dt e * dt / 3600 else 0

/-- One iteration of the order-update loop: sell orders accrue
`filled_this_tick`, other orders are untouched. -/
def fillOrder (fill : ℚ) (o : Order) : Order :=
  if o.side = "sell" then { o with filled_kwh := o.filled_kwh + fill } else o

/-- The removal test of the order-update loop (checked only for sell
orders): `filled_kwh >= quantity_kwh`. -/
def orderDone (o : Order) : Bool :=
  o.side == "sell" && decide (o.quantity_kwh ≤ o.filled_kwh)

/-- `order['status'] = 'executed'` on a completed order. -/
def execMark (o : Order) : Order := { o with status := "executed" }

/-- The order-update loop of `tick` over a copy of the active list:
returns the surviving active orders and the orders executed this tick
(in iteration order). -/
def tickOrders (fill : ℚ) : List Order → List Order × List Order
  | [] => ([], [])
  | o :: rest =>
    let o' := fillOrder fill o
    let pr := tickOrders fill rest
    if orderDone o' then (pr.1, execMark o' :: pr.2) else (o' :: pr.1, pr.2)

/-- `Simulator.tick(dt)` with the stochastic load spike `e` made explicit.
The measurement-noise triple and the snapshot/timeseries append are omitted
(they do not feed back into any state field). -/
def tick (s : SimState) (dt e : ℚ) : SimState :=
  let pv := tickPv s dt
  let de := tickGe s dt e * dt / 3600
  let pr := tickOrders (tickFill s dt e) s.active_orders
  { s with
    current_time := tickT s dt
    pv_power_kw := pv
    load_kw := tickLoad s e
    battery_power_kw := tickBp s dt e
    soc_kwh := clampQ 0 BATTERY_CAPACITY_KWH (s.soc_kwh + socChange (tickBp s dt e) dt)
    grid_import_kw := tickGi s dt e
    grid_export_kw := tickGe s dt e
    unserved_load_kw := tickUnserved s dt e
    energy_imported := s.energy_imported + tickGi s dt e * dt / 3600
    energy_exported := s.energy_exported + de
    pv_energy := s.pv_energy + pv * dt / 3600
    co2_savings := s.co2_savings + de * (45 / 100)
    token_earnings := s.token_earnings + de * (8 / 100)
    active_orders := pr.1
    events := s.events ++ pr.2.map (fun o => Event.mk "order_executed" o.order_id (tickT s dt)) }

/-- A sequence of ticks with their `(dt, spike)` inputs. -/
def runTicks (s : SimState) (inputs : List (ℚ × ℚ)) : SimState :=
  inputs.foldl (fun st p => tick st p.1 p.2) s

/-! ### Order helpers -/

/-- The order ids of a list of orders. -/
def ids (l : List Order) : List Nat := l.map Order.order_id

/-- Linear search of the active set by order id (as in `get_order_status`
and `cancel_order`). -/
def findOrder (l : List Order) (i : Nat) : Option Order :=
  l.find? (fun o => o.order_id == i)

/-! ### Event query (`GET /api/v1/events`) -/

/-- `simulator.events[-limit:]` from `get_events` in `main.py`, with
Python slice semantics: for `limit > 0` the suffix of length
`min(limit, len)`; for `limit ≤ 0` the index `-limit` is nonnegative, so
the slice drops the first `-limit` elements (in particular `-0` is `0`
and the whole list is returned). -/
def getEvents (events : List Event) (limit : ℤ) : List Event :=
  if 0 < limit then events.drop (events.length - min limit.toNat events.length)
  else events.drop (-limit).toNat

/-! ### Control surface (`POST /api/v1/control/switch` in `main.py`)

The endpoint receives the new value as a string.  Python's `float(...)`
and `json.loads(...)` are library functions outside this repository; they
are passed as parameters `pf` (returns `none` exactly when `float(value)`
raises `ValueError`) and `pj` (returns `none` when the value is not a JSON
object).  The FastAPI `Literal[...]` annotation rejects unknown switch
names before the handler runs; the handler itself parses and validates the
value, raising `HTTPException` before any assignment, and mutates exactly
one field otherwise. -/

/-- The switch names admitted by the `Literal` annotation. -/
def knownSwitches : List String :=
  ["daytime", "grid_connected", "market_enabled", "battery_reserve_pct",
   "manual_load_delta_kw", "sun_cloud_factor", "ev_plug", "ev_mode",
   "fault_inject", "time_acceleration"]

/-- The switches parsed as booleans. -/
def boolSwitches : List String :=
  ["daytime", "grid_connected", "market_enabled", "ev_plug"]

/-- The switches parsed as floats. -/
def floatSwitches : List String :=
  ["battery_reserve_pct", "manual_load_delta_kw", "sun_cloud_factor",
   "time_acceleration"]

/-- The single-field assignment for a boolean switch. -/
def setBoolSwitch (s : SimState) (sw : String) (b : Bool) : SimState :=
  if sw = "daytime" then { s with daytime := b }
  else if sw = "grid_connected" then { s with grid_connected := b }
  else if sw = "market_enabled" then { s with market_enabled := b }
  else { s with ev_plugged := b }

/-- The single-field assignment for a float switch. -/
def setFloatSwitch (s : SimState) (sw : String) (x : ℚ) : SimState :=
  if sw = "battery_reserve_pct" then { s with battery_reserve_pct := x }
  else if sw = "manual_load_delta_kw" then { s with manual_load_delta_kw := x }
  else if sw = "sun_cloud_factor" then { s with sun_cloud_factor := x }
  else { s with time_acceleration := x }

/-- `control_switch`: parse and validate the value, then assign one field.
Every rejection happens before any assignment. -/
def controlSwitch (pf : String → Option ℚ) (pj : String → Option (List (String × ℚ)))
    (s : SimState) (sw v : String) : Except String SimState :=
  if sw ∈ knownSwitches then
    if sw = "daytime" ∨ sw = "grid_connected" ∨ sw = "market_enabled" ∨ sw = "ev_plug" then
      if v = "true" ∨ v = "false" then Except.ok (setBoolSwitch s sw (v == "true"))
      else Except.error "value must be true or false"
    else if sw = "battery_reserve_pct" ∨ sw = "manual_load_delta_kw" ∨
        sw = "sun_cloud_factor" ∨ sw = "time_acceleration" then
      match pf v with
      | none => Except.error "value must be a valid number"
      | some x =>
        if sw = "battery_reserve_pct" ∧ ¬(0 ≤ x ∧ x ≤ 100) then
          Except.error "battery_reserve_pct must be between 0 and 100"
        else if sw = "sun_cloud_factor" ∧ ¬(0 ≤ x ∧ x ≤ 1) then
          Except.error "sun_cloud_factor must be between 0 and 1"
        else Except.ok (setFloatSwitch s sw x)
    else if sw = "ev_mode" then
      if v = "off" ∨ v = "fast" ∨ v = "scheduled" then Except.ok { s with ev_mode := v }
      else Except.error "ev_mode must be off fast or scheduled"
    else
      match pj v with
      | none => Except.error "fault_inject must be a valid JSON object"
      | some d => Except.ok { s with fault_inject := d }
  else Except.error "Unknown switch"

/-- The state the caller is left with: the new state on success, the old
state untouched on a rejection. -/
def applyControlSwitch (pf : String → Option ℚ) (pj : String → Option (List (String × ℚ)))
    (s : SimState) (sw v : String) : SimState :=
  match controlSwitch pf pj s sw v with
  | Except.ok s' => s'
  | Except.error _ => s

/-! ### Concrete states used by witnesses and counterexamples -/

/-- A sell order for 1 kWh over one hour, as `add_order` creates it. -/
def sellOrder0 : Order :=
  { order_id := 0, side := "sell", quantity_kwh := 1, duration_sec := 3600,
    filled_kwh := 0, status := "accepted" }

/-- A freshly started simulator holding one sell order. -/
def stSell : SimState := { initState 0 with active_orders := [sellOrder0] }

/-- Grid-disconnected with the battery already down at the reserve level. -/
def stIsland : SimState := { initState 0 with grid_connected := false, soc_kwh := 1 }

/-- Grid-disconnected, battery at reserve, with a stale nonzero
unserved-load reading from an earlier tick. -/
def stStale : SimState :=
  { initState 0 with grid_connected := false, soc_kwh := 1, unserved_load_kw := 7 }

/-- Grid-disconnected, battery at reserve, with a large manual load. -/
def stBigLoad : SimState :=
  { initState 0 with grid_connected := false, soc_kwh := 1, manual_load_delta_kw := 10 }

/-- A buy order whose filled quantity already equals its quantity. -/
def buyOrder0 : Order :=
  { order_id := 0, side := "buy", quantity_kwh := 0, duration_sec := 900,
    filled_kwh := 0, status := "accepted" }

/-- A freshly started simulator holding that buy order. -/
def stBuy : SimState := { initState 0 with active_orders := [buyOrder0] }

/-- A sample event. -/
def ev0 : Event := { type := "order_executed", order_id := 0, timestamp := 0 }

/-- A float parser that accepts nothing (usable where its result is not
reached). -/
def pfNone : String → Option ℚ := fun _ => none

/-- A JSON parser that accepts nothing. -/
def pjNone : String → Option (List (String × ℚ)) := fun _ => none

/-! ### Helper lemmas -/

theorem clampQ_le (lo hi x : ℚ) (h : lo ≤ hi) : lo ≤ clampQ lo hi x ∧ clampQ lo hi x ≤ hi := by
  unfold clampQ
  exact ⟨le_max_left _ _, max_le h (min_le_left _ _)⟩

theorem tick_soc_eq (s : SimState) (dt e : ℚ) :
    (tick s dt e).soc_kwh
      = clampQ 0 BATTERY_CAPACITY_KWH (s.soc_kwh + socChange (tickBp s dt e) dt) := rfl

theorem tick_pv_eq (s : SimState) (dt e : ℚ) : (tick s dt e).pv_power_kw = tickPv s dt := rfl

theorem tick_load_eq (s : SimState) (dt e : ℚ) : (tick s dt e).load_kw = tickLoad s e := rfl

theorem tick_bp_eq (s : SimState) (dt e : ℚ) : (tick s dt e).battery_power_kw = tickBp s dt e := rfl

theorem tick_ge_eq (s : SimState) (dt e : ℚ) : (tick s dt e).grid_export_kw = tickGe s dt e := rfl

theorem tick_gi_eq (s : SimState) (dt e : ℚ) : (tick s dt e).grid_import_kw = tickGi s dt e := rfl

theorem tick_unserved_eq (s : SimState) (dt e : ℚ) :
    (tick s dt e).unserved_load_kw = tickUnserved s dt e := rfl

theorem tick_active_eq (s : SimState) (dt e : ℚ) :
    (tick s dt e).active_orders = (tickOrders (tickFill s dt e) s.active_orders).1 := rfl

theorem tick_events_eq (s : SimState) (dt e : ℚ) :
    (tick s dt e).events
      = s.events ++ (tickOrders (tickFill s dt e) s.active_orders).2.map
          (fun o => Event.mk "order_executed" o.order_id (tickT s dt)) := rfl

theorem tickPv_nonneg (s : SimState) (dt : ℚ) : 0 ≤ tickPv s dt := le_max_left _ _

theorem tickGe_nonneg (s : SimState) (dt e : ℚ) : 0 ≤ tickGe s dt e := by
  unfold tickGe
  split
  · exact le_min (by linarith) (by norm_num [GRID_CAPACITY_KW])
  · exact le_refl 0

theorem tickGi_nonneg (s : SimState) (dt e : ℚ) : 0 ≤ tickGi s dt e := by
  unfold tickGi
  split
  · exact le_refl 0
  · split
    · refine le_min (by linarith) (by norm_num [GRID_CAPACITY_KW])
    · exact le_refl 0

theorem tickFill_nonneg (s : SimState) (dt e : ℚ) (hdt : 0 ≤ dt) : 0 ≤ tickFill s dt e := by
  unfold tickFill
  split
  · positivity
  · exact le_refl 0

theorem fillOrder_order_id (f : ℚ) (o : Order) : (fillOrder f o).order_id = o.order_id := by
  unfold fillOrder; split <;> rfl

theorem fillOrder_side (f : ℚ) (o : Order) : (fillOrder f o).side = o.side := by
  unfold fillOrder; split <;> rfl

theorem fillOrder_quantity (f : ℚ) (o : Order) :
    (fillOrder f o).quantity_kwh = o.quantity_kwh := by
  unfold fillOrder; split <;> rfl

theorem fillOrder_filled_le (f : ℚ) (o : Order) (hf : 0 ≤ f) :
    o.filled_kwh ≤ (fillOrder f o).filled_kwh := by
  unfold fillOrder
  split
  · simp only []
    linarith
  · exact le_refl _

theorem fillOrder_filled_nonneg (f : ℚ) (o : Order) (hf : 0 ≤ f) (ho : 0 ≤ o.filled_kwh) :
    0 ≤ (fillOrder f o).filled_kwh := le_trans ho (fillOrder_filled_le f o hf)

theorem execMark_order_id (o : Order) : (execMark o).order_id = o.order_id := rfl

/-- The order-update loop, written as map-then-partition: the surviving
active set and the executed list. -/
theorem tickOrders_eq (f : ℚ) (l : List Order) :
    tickOrders f l
      = ((l.map (fillOrder f)).filter (fun o => !(orderDone o)),
         ((l.map (fillOrder f)).filter (fun o => orderDone o)).map execMark) := by
  induction l with
  | nil => rfl
  | cons o rest ih =>
    simp only [tickOrders, List.map_cons, List.filter_cons]
    cases h : orderDone (fillOrder f o) <;> simp [h, ih]

theorem mem_tick_active (s : SimState) (dt e : ℚ) (o' : Order) :
    o' ∈ (tick s dt e).active_orders ↔
      ∃ o ∈ s.active_orders, fillOrder (tickFill s dt e) o = o' ∧ orderDone o' = false := by
  rw [tick_active_eq, tickOrders_eq]
  simp only [List.mem_filter, List.mem_map, Bool.not_eq_eq_eq_not, Bool.not_true]
  constructor
  · rintro ⟨⟨o, ho, rfl⟩, hdone⟩
    exact ⟨o, ho, rfl, hdone⟩
  · rintro ⟨o, ho, rfl, hdone⟩
    exact ⟨⟨o, ho, rfl⟩, hdone⟩

theorem ids_filter_map_sublist (f : ℚ) (p : Order → Bool) (l : List Order) :
    (ids ((l.map (fillOrder f)).filter p)).Sublist (ids l) := by
  unfold ids
  have h2 := (List.filter_sublist (l.map (fillOrder f)) (p := p)).map Order.order_id
  rw [List.map_map] at h2
  have h3 : l.map (Order.order_id ∘ fillOrder f) = l.map Order.order_id :=
    List.map_congr_left (fun o _ => fillOrder_order_id f o)
  rwa [h3] at h2

theorem ids_tick_sublist (s : SimState) (dt e : ℚ) :
    (ids (tick s dt e).active_orders).Sublist (ids s.active_orders) := by
  have h := ids_filter_map_sublist (tickFill s dt e) (fun o => !(orderDone o)) s.active_orders
  rw [tick_active_eq, tickOrders_eq]
  exact h

theorem tick_ids_nodup (s : SimState) (dt e : ℚ) (h : (ids s.active_orders).Nodup) :
    (ids (tick s dt e).active_orders).Nodup :=
  (ids_tick_sublist s dt e).nodup h

theorem findOrder_eq_none_iff (l : List Order) (i : Nat) :
    findOrder l i = none ↔ i ∉ ids l := by
  unfold findOrder ids
  rw [List.find?_eq_none]
  simp

theorem findOrder_id (l : List Order) (i : Nat) (o : Order) (h : findOrder l i = some o) :
    o.order_id = i := by
  have := List.find?_some h
  simpa using this

theorem findOrder_mem (l : List Order) (i : Nat) (o : Order) (h : findOrder l i = some o) :
    o ∈ l := List.mem_of_find?_eq_some h

/-- With nodup ids, two members with the same id coincide. -/
theorem eq_of_mem_of_id_eq (l : List Order) (hnd : (ids l).Nodup) (a b : Order)
    (ha : a ∈ l) (hb : b ∈ l) (h : a.order_id = b.order_id) : a = b :=
  List.inj_on_of_nodup_map hnd ha hb h

/-- Per-tick fill monotonicity for the order found under a given id. -/
theorem tick_find_mono (s : SimState) (dt e : ℚ) (hdt : 0 ≤ dt)
    (hnd : (ids s.active_orders).Nodup) (i : Nat) (o o' : Order)
    (h1 : findOrder s.active_orders i = some o)
    (h2 : findOrder (tick s dt e).active_orders i = some o') :
    o.filled_kwh ≤ o'.filled_kwh := by
  have hmem' : o' ∈ (tick s dt e).active_orders := findOrder_mem _ _ _ h2
  rw [mem_tick_active] at hmem'
  obtain ⟨a, ha, hfa, hdone⟩ := hmem'
  have hid' : o'.order_id = i := findOrder_id _ _ _ h2
  have hido : o.order_id = i := findOrder_id _ _ _ h1
  have hida : a.order_id = o.order_id := by
    rw [hido, ← hid', ← hfa, fillOrder_order_id]
  have hao : a = o :=
    eq_of_mem_of_id_eq s.active_orders hnd a o ha (findOrder_mem _ _ _ h1) hida
  subst hao
  rw [← hfa]
  exact fillOrder_filled_le _ _ (tickFill_nonneg s dt e hdt)

/-- A tick never introduces an order under an id absent from the active set. -/
theorem tick_findOrder_none (s : SimState) (dt e : ℚ) (i : Nat)
    (h : findOrder s.active_orders i = none) :
    findOrder (tick s dt e).active_orders i = none := by
  rw [findOrder_eq_none_iff] at h ⊢
  intro hmem
  exact h ((ids_tick_sublist s dt e).mem hmem)

/-- Once an id is gone from the active set, it never reappears. -/
theorem runTicks_findOrder_none (inputs : List (ℚ × ℚ)) (s : SimState) (i : Nat)
    (h : findOrder s.active_orders i = none) :
    findOrder (runTicks s inputs).active_orders i = none := by
  induction inputs generalizing s with
  | nil => exact h
  | cons p rest ih => exact ih (tick s p.1 p.2) (tick_findOrder_none s p.1 p.2 i h)

/-- Fill monotonicity along any tick sequence. -/
theorem runTicks_find_mono (inputs : List (ℚ × ℚ)) (s : SimState)
    (hdt : ∀ p ∈ inputs, 0 ≤ p.1) (hnd : (ids s.active_orders).Nodup)
    (i : Nat) (o o' : Order)
    (h1 : findOrder s.active_orders i = some o)
    (h2 : findOrder (runTicks s inputs).active_orders i = some o') :
    o.filled_kwh ≤ o'.filled_kwh := by
  induction inputs generalizing s o with
  | nil =>
    have heq : some o = some o' := h1 ▸ h2
    rw [Option.some.inj heq]
  | cons p rest ih =>
    have hrun : runTicks s (p :: rest) = runTicks (tick s p.1 p.2) rest := rfl
    rw [hrun] at h2
    cases hmid : findOrder (tick s p.1 p.2).active_orders i with
    | none =>
      have hnone := runTicks_findOrder_none rest (tick s p.1 p.2) i hmid
      rw [hnone] at h2
      exact absurd h2 (by simp)
    | some om =>
      have hstep := tick_find_mono s p.1 p.2 (hdt p (by simp)) hnd i o om h1 hmid
      have hrest := ih (tick s p.1 p.2) (fun q hq => hdt q (by simp [hq]))
        (tick_ids_nodup s p.1 p.2 hnd) om hmid h2
      exact le_trans hstep hrest

/-- One tick preserves the per-order fill bounds on the active set. -/
theorem tick_fill_bounds (s : SimState) (dt e : ℚ) (hdt : 0 ≤ dt)
    (hinv : ∀ o ∈ s.active_orders, 0 ≤ o.filled_kwh ∧ o.filled_kwh ≤ o.quantity_kwh) :
    ∀ o' ∈ (tick s dt e).active_orders, 0 ≤ o'.filled_kwh ∧ o'.filled_kwh ≤ o'.quantity_kwh := by
  intro o' hmem
  rw [mem_tick_active] at hmem
  obtain ⟨o, ho, hfo, hdone⟩ := hmem
  have hbounds := hinv o ho
  subst hfo
  refine ⟨fillOrder_filled_nonneg _ _ (tickFill_nonneg s dt e hdt) hbounds.1, ?_⟩
  unfold fillOrder at hdone ⊢
  by_cases hside : o.side = "sell"
  · rw [if_pos hside] at hdone ⊢
    unfold orderDone at hdone
    simp only [hside, beq_self_eq_true, Bool.true_and, decide_eq_false_iff_not, not_le] at hdone
    exact le_of_lt hdone
  · rw [if_neg hside]
    exact hbounds.2

/-- Fill bounds persist along any tick sequence. -/
theorem runTicks_fill_bounds (inputs : List (ℚ × ℚ)) (s : SimState)
    (hdt : ∀ p ∈ inputs, 0 ≤ p.1)
    (hinv : ∀ o ∈ s.active_orders, 0 ≤ o.filled_kwh ∧ o.filled_kwh ≤ o.quantity_kwh) :
    ∀ o' ∈ (runTicks s inputs).active_orders,
      0 ≤ o'.filled_kwh ∧ o'.filled_kwh ≤ o'.quantity_kwh := by
  induction inputs generalizing s with
  | nil => exact hinv
  | cons p rest ih =>
    exact ih (tick s p.1 p.2) (fun q hq => hdt q (by simp [hq]))
      (tick_fill_bounds s p.1 p.2 (hdt p (by simp)) hinv)

theorem tick_ei_eq (s : SimState) (dt e : ℚ) :
    (tick s dt e).energy_imported = s.energy_imported + tickGi s dt e * dt / 3600 := rfl

theorem tick_ee_eq (s : SimState) (dt e : ℚ) :
    (tick s dt e).energy_exported = s.energy_exported + tickGe s dt e * dt / 3600 := rfl

theorem tick_pe_eq (s : SimState) (dt e : ℚ) :
    (tick s dt e).pv_energy = s.pv_energy + tickPv s dt * dt / 3600 := rfl

theorem tick_co2_eq (s : SimState) (dt e : ℚ) :
    (tick s dt e).co2_savings = s.co2_savings + tickGe s dt e * dt / 3600 * (45 / 100) := rfl

theorem tick_tok_eq (s : SimState) (dt e : ℚ) :
    (tick s dt e).token_earnings = s.token_earnings + tickGe s dt e * dt / 3600 * (8 / 100) := rfl

/-! ### Claim theorems -/

/-- C1: for every simulator state and every knob setting, after every call
to `tick(dt)` the battery state of charge satisfies
`0 ≤ soc_kwh ≤ BATTERY_CAPACITY_KWH` (the final clamp of the SoC update
establishes the bound unconditionally). -/
theorem tick_soc_in_bounds (s : SimState) (dt e : ℚ) :
    0 ≤ (tick s dt e).soc_kwh ∧ (tick s dt e).soc_kwh ≤ BATTERY_CAPACITY_KWH := by
  rw [tick_soc_eq]
  exact clampQ_le 0 BATTERY_CAPACITY_KWH _ (by norm_num [BATTERY_CAPACITY_KWH])

/-- C6: with `daytime = false` the PV power computed by `tick` is exactly
`0` regardless of the time of day, and with `sun_cloud_factor = 0` it is
exactly `0` as well. -/
theorem tick_pv_dark_or_cloudy_zero (s : SimState) (dt e : ℚ) :
    (s.daytime = false → (tick s dt e).pv_power_kw = 0) ∧
    (s.sun_cloud_factor = 0 → (tick s dt e).pv_power_kw = 0) := by
  constructor
  · intro h
    rw [tick_pv_eq]
    unfold tickPv pvPower daylight_curve
    rw [h]
    simp
  · intro h
    rw [tick_pv_eq]
    unfold tickPv pvPower
    rw [h]
    simp

/-- A daytime state under full cloud cover. -/
def stNoSun : SimState := { initState 0 with daytime := true, sun_cloud_factor := 0 }

/-- Witness for the PV-zero theorem at concrete states. -/
theorem tick_pv_dark_or_cloudy_zero_witness :
    ((initState 0).daytime = false ∧ (tick (initState 0) 1 0).pv_power_kw = 0) ∧
    (stNoSun.sun_cloud_factor = 0 ∧ (tick stNoSun 1 0).pv_power_kw = 0) :=
  ⟨⟨rfl, (tick_pv_dark_or_cloudy_zero (initState 0) 1 0).1 rfl⟩,
   ⟨rfl, (tick_pv_dark_or_cloudy_zero stNoSun 1 0).2 rfl⟩⟩

/-- C10: for every state and every `tick(dt)` with `dt ≥ 0`, the
cumulative counters `energy_imported`, `energy_exported`, `pv_energy`,
`co2_savings` and `token_earnings` are non-decreasing. -/
theorem tick_counters_monotone (s : SimState) (dt e : ℚ) (hdt : 0 ≤ dt) :
    s.energy_imported ≤ (tick s dt e).energy_imported ∧
    s.energy_exported ≤ (tick s dt e).energy_exported ∧
    s.pv_energy ≤ (tick s dt e).pv_energy ∧
    s.co2_savings ≤ (tick s dt e).co2_savings ∧
    s.token_earnings ≤ (tick s dt e).token_earnings := by
  have hgi := tickGi_nonneg s dt e
  have hge := tickGe_nonneg s dt e
  have hpv := tickPv_nonneg s dt
  have h36 : (0:ℚ) ≤ 3600 := by norm_num
  have hei : 0 ≤ tickGi s dt e * dt / 3600 := div_nonneg (mul_nonneg hgi hdt) h36
  have hee : 0 ≤ tickGe s dt e * dt / 3600 := div_nonneg (mul_nonneg hge hdt) h36
  have hpe : 0 ≤ tickPv s dt * dt / 3600 := div_nonneg (mul_nonneg hpv hdt) h36
  refine ⟨?_, ?_, ?_, ?_, ?_⟩
  · rw [tick_ei_eq]; linarith
  · rw [tick_ee_eq]; linarith
  · rw [tick_pe_eq]; linarith
  · rw [tick_co2_eq]
    have : 0 ≤ tickGe s dt e * dt / 3600 * (45 / 100) := by positivity
    linarith
  · rw [tick_tok_eq]
    have : 0 ≤ tickGe s dt e * dt / 3600 * (8 / 100) := by positivity
    linarith

/-- Witness for counter monotonicity at a concrete state. -/
theorem tick_counters_monotone_witness :
    (0:ℚ) ≤ 1 ∧
    ((initState 0).energy_imported ≤ (tick (initState 0) 1 0).energy_imported ∧
     (initState 0).energy_exported ≤ (tick (initState 0) 1 0).energy_exported ∧
     (initState 0).pv_energy ≤ (tick (initState 0) 1 0).pv_energy ∧
     (initState 0).co2_savings ≤ (tick (initState 0) 1 0).co2_savings ∧
     (initState 0).token_earnings ≤ (tick (initState 0) 1 0).token_earnings) :=
  ⟨by norm_num, tick_counters_monotone (initState 0) 1 0 (by norm_num)⟩

/-- C9: `tick` assigns `unserved_load_kw` only when the grid is
disconnected and the deficit `-net` exceeds the 5 kW grid capacity (then it
becomes `-net - 5`); in every other case the field keeps its previous
value, so a stale value is never reset. -/
theorem tick_unserved_frame (s : SimState) (dt e : ℚ) :
    ((¬ 0 < tickNetPower s dt e) ∧ s.grid_connected = false ∧
        GRID_CAPACITY_KW < -tickNetPower s dt e →
      (tick s dt e).unserved_load_kw = -tickNetPower s dt e - GRID_CAPACITY_KW) ∧
    (¬((¬ 0 < tickNetPower s dt e) ∧ s.grid_connected = false ∧
        GRID_CAPACITY_KW < -tickNetPower s dt e) →
      (tick s dt e).unserved_load_kw = s.unserved_load_kw) := by
  simp only [tick_unserved_eq]
  constructor
  · rintro ⟨h1, h2, h3⟩
    unfold tickUnserved
    rw [if_neg h1, if_pos ⟨h2, h3⟩]
  · intro h
    unfold tickUnserved
    by_cases h1 : 0 < tickNetPower s dt e
    · rw [if_pos h1]
    · rw [if_neg h1]
      by_cases hc : s.grid_connected = false ∧ GRID_CAPACITY_KW < -tickNetPower s dt e
      · exact absurd ⟨h1, hc.1, hc.2⟩ h
      · rw [if_neg hc]

/-- Witness for the unserved-load frame condition: an islanded tick with an
11.5 kW deficit records `11.5 - 5 = 6.5` kW of unserved load. -/
theorem tick_unserved_frame_witness :
    ((¬ 0 < tickNetPower stBigLoad 1 0) ∧ stBigLoad.grid_connected = false ∧
        GRID_CAPACITY_KW < -tickNetPower stBigLoad 1 0) ∧
    (tick stBigLoad 1 0).unserved_load_kw
      = -tickNetPower stBigLoad 1 0 - GRID_CAPACITY_KW := by
  have hnet : tickNetPower stBigLoad 1 0 = -(23/2) := by
    norm_num [tickNetPower, tickPv, tickLoad, tickBp, tickT, pvPower, loadPower,
      daylight_curve, hourOfDay, pv_temp_derate, tradeSellKw, sellOrderRate,
      availCharge, availDischarge, batteryPower, stBigLoad, initState,
      PV_CAPACITY_KW, BATTERY_CAPACITY_KWH, BATTERY_SOC_START_PCT,
      EFFICIENCY_ROUNDTRIP, P_MAX_CHARGE, P_MAX_DISCHARGE, INVERTER_EFFICIENCY,
      BASE_LOAD_KW, SUNRISE_SECONDS, SUNSET_SECONDS, MAX_IRRADIANCE,
      STC_IRRADIANCE, BATTERY_TEMP_C, inf_eq_min, sup_eq_max, min_def, max_def]
  have hc : (¬ 0 < tickNetPower stBigLoad 1 0) ∧ stBigLoad.grid_connected = false ∧
      GRID_CAPACITY_KW < -tickNetPower stBigLoad 1 0 := by
    rw [hnet]
    refine ⟨by norm_num, rfl, by norm_num [GRID_CAPACITY_KW]⟩
  exact ⟨hc, (tick_unserved_frame stBigLoad 1 0).1 hc⟩

/-- C5 counterexample: an islanded tick with a 1.5 kW deficit (`net = -3/2`)
imports 0 kW, yet the unserved-load field keeps its stale value `7` from an
earlier tick — it records neither the unserved part of the deficit (`3/2`)
nor `0`, refuting the claim that the deficit not served is recorded as
unserved load. -/
theorem tick_unserved_not_recorded_cex :
    (tick stStale 1 0).grid_import_kw = 0 ∧
    tickNetPower stStale 1 0 = -(3/2) ∧
    (tick stStale 1 0).unserved_load_kw = 7 ∧
    (tick stStale 1 0).unserved_load_kw ≠ -tickNetPower stStale 1 0 ∧
    (tick stStale 1 0).unserved_load_kw ≠ 0 := by
  norm_num [tick, tickT, tickPv, tickLoad, tickBp, tickNetPower, tickGe, tickGi,
    tickUnserved, tickFill, tickOrders, fillOrder, orderDone, execMark, pvPower,
    loadPower, daylight_curve, hourOfDay, pv_temp_derate, tradeSellKw,
    sellOrderRate, availCharge, availDischarge, batteryPower, socChange, clampQ,
    stStale, initState, PV_CAPACITY_KW, BATTERY_CAPACITY_KWH,
    BATTERY_SOC_START_PCT, EFFICIENCY_ROUNDTRIP, P_MAX_CHARGE, P_MAX_DISCHARGE,
    INVERTER_EFFICIENCY, BASE_LOAD_KW, SUNRISE_SECONDS, SUNSET_SECONDS,
    MAX_IRRADIANCE, STC_IRRADIANCE, BATTERY_TEMP_C, GRID_CAPACITY_KW,
    inf_eq_min, sup_eq_max, min_def, max_def]

/-- C5 (amended): with `net = pv + battery - load` as computed by the tick:
if `net > 0` the tick exports `min(net, 5)` and imports 0; if `net ≤ 0` it
imports `min(-net, 5)` when grid-connected and 0 when disconnected; the
unserved-load field is assigned `-net - 5` only when disconnected with
`-net > 5`, and is left unchanged otherwise. -/
theorem tick_grid_exchange (s : SimState) (dt e : ℚ) :
    (tick s dt e).grid_export_kw
        = (if 0 < tickNetPower s dt e then min (tickNetPower s dt e) GRID_CAPACITY_KW else 0) ∧
    (tick s dt e).grid_import_kw
        = (if 0 < tickNetPower s dt e then 0
           else if s.grid_connected then min (-tickNetPower s dt e) GRID_CAPACITY_KW else 0) ∧
    (tick s dt e).unserved_load_kw
        = (if (¬ 0 < tickNetPower s dt e) ∧ s.grid_connected = false ∧
              GRID_CAPACITY_KW < -tickNetPower s dt e
           then -tickNetPower s dt e - GRID_CAPACITY_KW else s.unserved_load_kw) := by
  refine ⟨rfl, rfl, ?_⟩
  rw [tick_unserved_eq]
  unfold tickUnserved
  by_cases h1 : 0 < tickNetPower s dt e
  · rw [if_pos h1, if_neg (fun hx => hx.1 h1)]
  · rw [if_neg h1]
    by_cases hc : s.grid_connected = false ∧ GRID_CAPACITY_KW < -tickNetPower s dt e
    · rw [if_pos hc, if_pos ⟨h1, hc.1, hc.2⟩]
    · rw [if_neg hc, if_neg (fun hx => hc ⟨hx.2.1, hx.2.2⟩)]

/-- C2 counterexample: with the grid disconnected and the battery at its
reserve level, the tick serves none of the 1.5 kW load:
`pv + battery + import - export - load = -3/2`, not `0`. -/
theorem tick_power_balance_cex :
    (tick stIsland 1 0).pv_power_kw + (tick stIsland 1 0).battery_power_kw
      + (tick stIsland 1 0).grid_import_kw - (tick stIsland 1 0).grid_export_kw
      - (tick stIsland 1 0).load_kw = -(3/2) ∧ ((-(3/2) : ℚ) ≠ 0) := by
  constructor
  · norm_num [tick, tickT, tickPv, tickLoad, tickBp, tickNetPower, tickGe, tickGi,
      tickUnserved, tickFill, tickOrders, fillOrder, orderDone, execMark, pvPower,
      loadPower, daylight_curve, hourOfDay, pv_temp_derate, tradeSellKw,
      sellOrderRate, availCharge, availDischarge, batteryPower, socChange, clampQ,
      stIsland, initState, PV_CAPACITY_KW, BATTERY_CAPACITY_KWH,
      BATTERY_SOC_START_PCT, EFFICIENCY_ROUNDTRIP, P_MAX_CHARGE, P_MAX_DISCHARGE,
      INVERTER_EFFICIENCY, BASE_LOAD_KW, SUNRISE_SECONDS, SUNSET_SECONDS,
      MAX_IRRADIANCE, STC_IRRADIANCE, BATTERY_TEMP_C, GRID_CAPACITY_KW,
      inf_eq_min, sup_eq_max, min_def, max_def]
  · norm_num

/-- C2 (amended): the per-tick power balance
`pv + battery + import - export - load = 0` holds exactly whenever the grid
is connected and the net power lies within the ±5 kW grid capacity (outside
that range the residual is precisely the curtailed export or the unserved
deficit). -/
theorem tick_power_balance (s : SimState) (dt e : ℚ) (hc : s.grid_connected = true)
    (h1 : -GRID_CAPACITY_KW ≤ tickNetPower s dt e)
    (h2 : tickNetPower s dt e ≤ GRID_CAPACITY_KW) :
    (tick s dt e).pv_power_kw + (tick s dt e).battery_power_kw
      + (tick s dt e).grid_import_kw - (tick s dt e).grid_export_kw
      - (tick s dt e).load_kw = 0 := by
  rw [tick_pv_eq, tick_bp_eq, tick_gi_eq, tick_ge_eq, tick_load_eq]
  have hnet : tickNetPower s dt e = tickPv s dt + tickBp s dt e - tickLoad s e := rfl
  unfold tickGi tickGe
  by_cases h : 0 < tickNetPower s dt e
  · rw [if_pos h, if_pos h, min_eq_left h2]
    linarith [hnet]
  · rw [if_neg h, if_neg h]
    simp only [hc, if_true]
    rw [min_eq_left (by linarith)]
    linarith [hnet]

/-- Witness for the amended power balance at the freshly started state
(grid connected, `net = 0`). -/
theorem tick_power_balance_witness :
    (initState 0).grid_connected = true ∧
    -GRID_CAPACITY_KW ≤ tickNetPower (initState 0) 1 0 ∧
    tickNetPower (initState 0) 1 0 ≤ GRID_CAPACITY_KW ∧
    (tick (initState 0) 1 0).pv_power_kw + (tick (initState 0) 1 0).battery_power_kw
      + (tick (initState 0) 1 0).grid_import_kw - (tick (initState 0) 1 0).grid_export_kw
      - (tick (initState 0) 1 0).load_kw = 0 := by
  have hnet : tickNetPower (initState 0) 1 0 = 0 := by
    norm_num [tickNetPower, tickPv, tickLoad, tickBp, tickT, pvPower, loadPower,
      daylight_curve, hourOfDay, pv_temp_derate, tradeSellKw, sellOrderRate,
      availCharge, availDischarge, batteryPower, initState,
      PV_CAPACITY_KW, BATTERY_CAPACITY_KWH, BATTERY_SOC_START_PCT,
      EFFICIENCY_ROUNDTRIP, P_MAX_CHARGE, P_MAX_DISCHARGE, INVERTER_EFFICIENCY,
      BASE_LOAD_KW, SUNRISE_SECONDS, SUNSET_SECONDS, MAX_IRRADIANCE,
      STC_IRRADIANCE, BATTERY_TEMP_C, inf_eq_min, sup_eq_max, min_def, max_def]
  have hb1 : -GRID_CAPACITY_KW ≤ tickNetPower (initState 0) 1 0 := by
    rw [hnet]; norm_num [GRID_CAPACITY_KW]
  have hb2 : tickNetPower (initState 0) 1 0 ≤ GRID_CAPACITY_KW := by
    rw [hnet]; norm_num [GRID_CAPACITY_KW]
  exact ⟨rfl, hb1, hb2, tick_power_balance (initState 0) 1 0 rfl hb1 hb2⟩

/-- C3 counterexample: one active sell order (1 kWh over 3600 s, implied
rate `min(3, 1) = 1` kW) while the battery also discharges 1.5 kW to serve
the load: the tick adds `2.5 * 1/3600 = 5/7200` kWh to the order's fill —
the full realized discharge — whereas the trade-attributed demand bounded
by the order's implied rate would give `1 * 1/3600 = 1/3600` kWh. -/
theorem tick_sell_fill_cex :
    (tick stSell 1 0).active_orders.map Order.filled_kwh = [5/7200] ∧
    sellOrderRate sellOrder0 * 1 / 3600 = 1/3600 ∧
    ((5/7200 : ℚ) ≠ 1/3600) := by
  refine ⟨?_, ?_, by norm_num⟩
  · norm_num [tick, tickT, tickPv, tickLoad, tickBp, tickNetPower, tickGe, tickGi,
      tickUnserved, tickFill, tickOrders, fillOrder, orderDone, execMark, pvPower,
      loadPower, daylight_curve, hourOfDay, pv_temp_derate, tradeSellKw,
      sellOrderRate, availCharge, availDischarge, batteryPower, socChange, clampQ,
      stSell, sellOrder0, initState, PV_CAPACITY_KW, BATTERY_CAPACITY_KWH,
      BATTERY_SOC_START_PCT, EFFICIENCY_ROUNDTRIP, P_MAX_CHARGE, P_MAX_DISCHARGE,
      INVERTER_EFFICIENCY, BASE_LOAD_KW, SUNRISE_SECONDS, SUNSET_SECONDS,
      MAX_IRRADIANCE, STC_IRRADIANCE, BATTERY_TEMP_C, GRID_CAPACITY_KW,
      inf_eq_min, sup_eq_max, min_def, max_def, abs_of_nonneg]
  · norm_num [sellOrderRate, sellOrder0, P_MAX_DISCHARGE, inf_eq_min, min_def]

/-- C3 (amended): in every tick each active sell order's `filled_kwh` is
incremented by the same amount `filled_this_tick` — the tick's entire
realized battery discharge (load-serving part included) times `dt/3600`,
not bounded by the order's own implied rate; orders whose fill then reaches
their quantity are dropped from the active set with an `order_executed`
event. -/
theorem tick_sell_fill_total_discharge (s : SimState) (dt e : ℚ) :
    (tick s dt e).active_orders
        = (s.active_orders.map (fillOrder (tickFill s dt e))).filter
            (fun o => !(orderDone o)) ∧
    (tick s dt e).events
        = s.events ++ ((s.active_orders.map (fillOrder (tickFill s dt e))).filter
            (fun o => orderDone o)).map
            (fun o => Event.mk "order_executed" o.order_id (tickT s dt)) ∧
    tickFill s dt e
        = (if 0 < (tick s dt e).battery_power_kw
           then (tick s dt e).battery_power_kw * dt / 3600 else 0) := by
  refine ⟨?_, ?_, rfl⟩
  · rw [tick_active_eq, tickOrders_eq]
  · rw [tick_events_eq, tickOrders_eq]
    simp only [List.map_map]
    rfl

/-- C4 counterexample: a buy order whose `filled_kwh` already equals its
`quantity_kwh` survives a tick in the active set with status `accepted` and
no event: the executed transition is applied to sell orders only. -/
theorem order_executed_transition_cex :
    buyOrder0.filled_kwh = buyOrder0.quantity_kwh ∧
    (tick stBuy 1 0).active_orders = [buyOrder0] ∧
    buyOrder0.status = "accepted" ∧
    (tick stBuy 1 0).events = [] := by
  refine ⟨rfl, ?_, rfl, ?_⟩
  · rw [tick_active_eq, tickOrders_eq]
    simp [stBuy, buyOrder0, initState, fillOrder, orderDone]
  · rw [tick_events_eq, tickOrders_eq]
    simp [stBuy, buyOrder0, initState, fillOrder, orderDone]

/-- C4 (amended): across any tick sequence with nonnegative `dt` and
distinct order ids, an order's `filled_kwh` is non-decreasing while it
stays in the active set and never reappears once removed; every active
order keeps `0 ≤ filled_kwh ≤ quantity_kwh` when that bound held
initially; and a *sell* order whose post-fill quantity is reached is
removed from the active set in that same tick, marked `executed`, with an
`order_executed` event appended (buy orders are never filled or removed by
ticks). -/
theorem order_fill_invariants (s : SimState) (inputs : List (ℚ × ℚ))
    (hdt : ∀ p ∈ inputs, 0 ≤ p.1)
    (hnd : (ids s.active_orders).Nodup)
    (hinv : ∀ o ∈ s.active_orders, 0 ≤ o.filled_kwh ∧ o.filled_kwh ≤ o.quantity_kwh) :
    (∀ i o o', findOrder s.active_orders i = some o →
        findOrder (runTicks s inputs).active_orders i = some o' →
        o.filled_kwh ≤ o'.filled_kwh) ∧
    (∀ o' ∈ (runTicks s inputs).active_orders,
        0 ≤ o'.filled_kwh ∧ o'.filled_kwh ≤ o'.quantity_kwh) ∧
    (∀ dt e o, o ∈ s.active_orders → o.side = "sell" →
        orderDone (fillOrder (tickFill s dt e) o) = true →
        findOrder (tick s dt e).active_orders o.order_id = none ∧
        execMark (fillOrder (tickFill s dt e) o)
          ∈ (tickOrders (tickFill s dt e) s.active_orders).2 ∧
        (execMark (fillOrder (tickFill s dt e) o)).status = "executed" ∧
        Event.mk "order_executed" o.order_id (tickT s dt) ∈ (tick s dt e).events) := by
  refine ⟨runTicks_find_mono inputs s hdt hnd, runTicks_fill_bounds inputs s hdt hinv, ?_⟩
  intro dt e o ho hside hdone
  have hmemExec : execMark (fillOrder (tickFill s dt e) o)
      ∈ (tickOrders (tickFill s dt e) s.active_orders).2 := by
    rw [tickOrders_eq]
    exact List.mem_map.mpr ⟨fillOrder (tickFill s dt e) o,
      List.mem_filter.mpr ⟨List.mem_map.mpr ⟨o, ho, rfl⟩, hdone⟩, rfl⟩
  refine ⟨?_, hmemExec, rfl, ?_⟩
  · rw [tick_active_eq, tickOrders_eq]
    unfold findOrder
    rw [List.find?_eq_none]
    intro x hx
    obtain ⟨hxm, hxkeep⟩ := List.mem_filter.mp hx
    obtain ⟨a, ha, rfl⟩ := List.mem_map.mp hxm
    intro hxid
    have haid : a.order_id = o.order_id := by
      rw [← fillOrder_order_id (tickFill s dt e) a]
      simpa using hxid
    have hao : a = o := eq_of_mem_of_id_eq s.active_orders hnd a o ha ho haid
    subst hao
    rw [hdone] at hxkeep
    simp at hxkeep
  · rw [tick_events_eq]
    refine List.mem_append_right _ (List.mem_map.mpr
      ⟨execMark (fillOrder (tickFill s dt e) o), hmemExec, ?_⟩)
    rw [execMark_order_id, fillOrder_order_id]

/-- Witness for the order-fill invariants at a concrete one-order state
and a single 1-second tick. -/
theorem order_fill_invariants_witness :
    (∀ p ∈ [((1:ℚ), (0:ℚ))], 0 ≤ p.1) ∧
    (ids stSell.active_orders).Nodup ∧
    (∀ o ∈ stSell.active_orders, 0 ≤ o.filled_kwh ∧ o.filled_kwh ≤ o.quantity_kwh) ∧
    ((∀ i o o', findOrder stSell.active_orders i = some o →
        findOrder (runTicks stSell [((1:ℚ), (0:ℚ))]).active_orders i = some o' →
        o.filled_kwh ≤ o'.filled_kwh) ∧
     (∀ o' ∈ (runTicks stSell [((1:ℚ), (0:ℚ))]).active_orders,
        0 ≤ o'.filled_kwh ∧ o'.filled_kwh ≤ o'.quantity_kwh) ∧
     (∀ dt e o, o ∈ stSell.active_orders → o.side = "sell" →
        orderDone (fillOrder (tickFill stSell dt e) o) = true →
        findOrder (tick stSell dt e).active_orders o.order_id = none ∧
        execMark (fillOrder (tickFill stSell dt e) o)
          ∈ (tickOrders (tickFill stSell dt e) stSell.active_orders).2 ∧
        (execMark (fillOrder (tickFill stSell dt e) o)).status = "executed" ∧
        Event.mk "order_executed" o.order_id (tickT stSell dt)
          ∈ (tick stSell dt e).events)) := by
  have h1 : ∀ p ∈ [((1:ℚ), (0:ℚ))], 0 ≤ p.1 := by norm_num
  have h2 : (ids stSell.active_orders).Nodup := by
    simp [ids, stSell, sellOrder0, initState]
  have h3 : ∀ o ∈ stSell.active_orders, 0 ≤ o.filled_kwh ∧ o.filled_kwh ≤ o.quantity_kwh := by
    intro o ho
    simp only [stSell, initState, List.mem_singleton] at ho
    subst ho
    norm_num [sellOrder0]
  exact ⟨h1, h2, h3, order_fill_invariants stSell [((1:ℚ), (0:ℚ))] h1 h2 h3⟩

theorem applyControlSwitch_of_error (pf : String → Option ℚ)
    (pj : String → Option (List (String × ℚ))) (s : SimState) (sw v m : String)
    (h : controlSwitch pf pj s sw v = Except.error m) :
    applyControlSwitch pf pj s sw v = s := by
  unfold applyControlSwitch
  rw [h]

/-- C7: `SetSwitch` rejects with an error — leaving every state field
unmutated — each of: an unknown switch name, a non-boolean value for a
boolean switch, an unparsable number for a float switch, an out-of-range
`battery_reserve_pct` (outside `[0,100]`) or `sun_cloud_factor` (outside
`[0,1]`), and an unknown `ev_mode` value. -/
theorem control_switch_rejects (pf : String → Option ℚ)
    (pj : String → Option (List (String × ℚ))) (s : SimState) (sw v : String) :
    (sw ∉ knownSwitches →
      (∃ m, controlSwitch pf pj s sw v = Except.error m) ∧
      applyControlSwitch pf pj s sw v = s) ∧
    (sw ∈ boolSwitches → v ≠ "true" → v ≠ "false" →
      (∃ m, controlSwitch pf pj s sw v = Except.error m) ∧
      applyControlSwitch pf pj s sw v = s) ∧
    (sw ∈ floatSwitches → pf v = none →
      (∃ m, controlSwitch pf pj s sw v = Except.error m) ∧
      applyControlSwitch pf pj s sw v = s) ∧
    (∀ x, pf v = some x → sw = "battery_reserve_pct" → ¬(0 ≤ x ∧ x ≤ 100) →
      (∃ m, controlSwitch pf pj s sw v = Except.error m) ∧
      applyControlSwitch pf pj s sw v = s) ∧
    (∀ x, pf v = some x → sw = "sun_cloud_factor" → ¬(0 ≤ x ∧ x ≤ 1) →
      (∃ m, controlSwitch pf pj s sw v = Except.error m) ∧
      applyControlSwitch pf pj s sw v = s) ∧
    (sw = "ev_mode" → v ≠ "off" → v ≠ "fast" → v ≠ "scheduled" →
      (∃ m, controlSwitch pf pj s sw v = Except.error m) ∧
      applyControlSwitch pf pj s sw v = s) := by
  refine ⟨?_, ?_, ?_, ?_, ?_, ?_⟩
  · intro h
    have herr : controlSwitch pf pj s sw v = Except.error "Unknown switch" := by
      unfold controlSwitch
      rw [if_neg h]
    exact ⟨⟨_, herr⟩, applyControlSwitch_of_error pf pj s sw v _ herr⟩
  · intro hm hv1 hv2
    have hm' : sw = "daytime" ∨ sw = "grid_connected" ∨ sw = "market_enabled" ∨
        sw = "ev_plug" := by
      simpa [boolSwitches] using hm
    have herr : controlSwitch pf pj s sw v = Except.error "value must be true or false" := by
      rcases hm' with rfl | rfl | rfl | rfl <;>
      · unfold controlSwitch
        rw [if_pos (by decide), if_pos (by decide),
          if_neg (fun hor => hor.elim hv1 hv2)]
    exact ⟨⟨_, herr⟩, applyControlSwitch_of_error pf pj s sw v _ herr⟩
  · intro hm hpf
    have hm' : sw = "battery_reserve_pct" ∨ sw = "manual_load_delta_kw" ∨
        sw = "sun_cloud_factor" ∨ sw = "time_acceleration" := by
      simpa [floatSwitches] using hm
    have herr : controlSwitch pf pj s sw v = Except.error "value must be a valid number" := by
      rcases hm' with rfl | rfl | rfl | rfl <;>
      · unfold controlSwitch
        rw [if_pos (by decide), if_neg (by decide), if_pos (by decide), hpf]
    exact ⟨⟨_, herr⟩, applyControlSwitch_of_error pf pj s sw v _ herr⟩
  · rintro x hpf rfl hr
    have herr : controlSwitch pf pj s "battery_reserve_pct" v
        = Except.error "battery_reserve_pct must be between 0 and 100" := by
      unfold controlSwitch
      rw [if_pos (by decide), if_neg (by decide), if_pos (by decide), hpf]
      simp only []
      rw [if_pos ⟨trivial, hr⟩]
    exact ⟨⟨_, herr⟩, applyControlSwitch_of_error pf pj s _ v _ herr⟩
  · rintro x hpf rfl hr
    have herr : controlSwitch pf pj s "sun_cloud_factor" v
        = Except.error "sun_cloud_factor must be between 0 and 1" := by
      unfold controlSwitch
      rw [if_pos (by decide), if_neg (by decide), if_pos (by decide), hpf]
      simp only []
      rw [if_neg (fun hx => absurd hx.1 (by decide)), if_pos ⟨trivial, hr⟩]
    exact ⟨⟨_, herr⟩, applyControlSwitch_of_error pf pj s _ v _ herr⟩
  · rintro rfl hv1 hv2 hv3
    have herr : controlSwitch pf pj s "ev_mode" v
        = Except.error "ev_mode must be off fast or scheduled" := by
      unfold controlSwitch
      rw [if_pos (by decide), if_neg (by decide), if_neg (by decide),
        if_pos (by decide), if_neg (fun hor => hor.elim hv1 (fun h => h.elim hv2 hv3))]
    exact ⟨⟨_, herr⟩, applyControlSwitch_of_error pf pj s _ v _ herr⟩

/-- Witness for switch rejection: an unknown switch name is refused and the
state is untouched. -/
theorem control_switch_rejects_witness :
    ("bogus" ∉ knownSwitches) ∧
    ((∃ m, controlSwitch pfNone pjNone (initState 0) "bogus" "x" = Except.error m) ∧
      applyControlSwitch pfNone pjNone (initState 0) "bogus" "x" = initState 0) :=
  ⟨by decide,
   (control_switch_rejects pfNone pjNone (initState 0) "bogus" "x").1 (by decide)⟩

/-- C8 (code evaluation at the failing input): with one logged event,
`GetEvents(0)` returns the whole log instead of zero events — Python's
`events[-0:]` slice is the full list. -/
theorem getEvents_limit_zero_returns_all :
    getEvents [ev0] 0 = [ev0] ∧ getEvents [ev0] 0 ≠ [] := by
  constructor
  · simp [getEvents]
  · simp [getEvents]

end WattSwap
